import Mathlib

/-!
Verification of the game-session synchronization state machine of the chess
client (`src/App.tsx`).  The rules engine (chess.js), the automated-opponent
move selector (`getBestMove`) and the relay are external collaborators: they
are modelled as abstract function bundles, exactly at the interface the client
consumes, while every state transition of the client itself is translated
directly from `App.tsx`.
-/

/-- A chess side, `'w' | 'b'` of `src/types` (`PieceColor`). -/
inductive Color
  | w
  | b
deriving DecidableEq

/-- The opposite side. -/
def Color.flip : Color → Color
  | .w => .b
  | .b => .w

/-- Piece kinds, `PieceType` of `src/types`. -/
inductive PieceType
  | p
  | n
  | b
  | r
  | q
  | k
deriving DecidableEq

/-- `GameMode` of `src/types`: `'friend' | 'bot' | 'online'`. -/
inductive GameMode
  | friend
  | bot
  | online
deriving DecidableEq

/-- `Difficulty` of `src/types`. -/
inductive Difficulty
  | easy
  | medium
  | hard
  | impossible
deriving DecidableEq

/-- The `view` state of `App`: `'menu' | 'game'`. -/
inductive View
  | menu
  | game
deriving DecidableEq

/-- A move attempt `{ from, to, promotion? }` (`Move` of `src/types`). -/
structure Move where
  fromSq : String
  toSq : String
  promotion : Option String := none
deriving DecidableEq

/-- The argument `{ from: '', to: '', promotion: '' }` the bot callback feeds
through `makeMove` before applying its SAN move. -/
def emptyMove : Move :=
  { fromSq := "", toSq := "", promotion := some "" }

/-- An entry of the captured-piece ledger: `{type, color}`. -/
structure CapturedPiece where
  type : PieceType
  color : Color
deriving DecidableEq

/-- The `captured` state: one ordered list per side, keyed by the capturing
side as in `setCaptured`. -/
structure Captured where
  w : List CapturedPiece
  b : List CapturedPiece
deriving DecidableEq

/-- The fields of the chess.js move result the client reads: the mover's
color and the captured piece kind, when any. -/
structure MoveResult where
  color : Color
  captured : Option PieceType
deriving DecidableEq

/-- The interface of the rules engine (chess.js `Chess`) as consumed by
`App.tsx`.  `moveFn` is `game.move(moveObject)` and `moveSan` is
`game.move(sanString)`; both return `none` when the engine rejects the move
(null result or thrown exception), with no mutation.  `load` replaces the
position from a snapshot string, `fen` serializes it. -/
structure Engine (Pos : Type) where
  initial : Pos
  moveFn : Pos → Move → Option (Pos × MoveResult)
  moveSan : Pos → String → Option (Pos × MoveResult)
  fen : Pos → String
  load : String → Pos
  turn : Pos → Color
  isGameOver : Pos → Bool
  inCheck : Pos → Bool
  isDraw : Pos → Bool
  isStalemate : Pos → Bool
  isThreefoldRepetition : Pos → Bool
  isInsufficientMaterial : Pos → Bool

/-- The client state of `App`: React state hooks, the `isBotThinking` ref,
socket connectivity, and `pendingBot`, the number of scheduled (not yet
fired) bot `setTimeout` callbacks. -/
structure AppState (Pos : Type) where
  view : View
  gameMode : GameMode
  difficulty : Difficulty
  game : Pos
  fen : String
  captured : Captured
  roomId : String
  playerColor : Color
  isOnlineGameStarted : Bool
  joinRoomId : String
  error : String
  isBotThinking : Bool
  connected : Bool
  pendingBot : Nat
deriving DecidableEq

/-- Messages the client emits to the relay. -/
inductive Emit
  | moveMsg (roomId : String) (m : Move) (fen : String)
  | joinRoomMsg (roomId : String)
  | createRoomMsg
deriving DecidableEq

/-- `setCaptured(prev => ({...prev, [result.color]: [...prev[result.color],
{type: result.captured, color: opposite}]}))` of `App.tsx`. -/
def appendCapture (c : Captured) (mover : Color) (pt : PieceType) : Captured :=
  match mover with
  | .w => { c with w := c.w ++ [{ type := pt, color := Color.b }] }
  | .b => { c with b := c.b ++ [{ type := pt, color := Color.w }] }

/-- `makeMove` of `App.tsx` (lines 83-123): turn gate for online mode, the
`game.move` attempt (exceptions caught, returning `false` with no state
change), state/fen update, captured-ledger append, and the relay emit for
online games.  Result: (returned boolean, new state, emitted messages). -/
def makeMove {Pos : Type} (E : Engine Pos) (s : AppState Pos) (m : Move) :
    Bool × AppState Pos × List Emit :=
  if s.gameMode = GameMode.online ∧ E.turn s.game ≠ s.playerColor then
    (false, s, [])
  else
    match E.moveFn s.game m with
    | none => (false, s, [])
    | some (g, r) =>
      let s1 := { s with game := g, fen := E.fen g }
      let s2 :=
        match r.captured with
        | some pt => { s1 with captured := appendCapture s1.captured r.color pt }
        | none => s1
      if s.gameMode = GameMode.online then
        (true, s2, [Emit.moveMsg s.roomId m (E.fen g)])
      else
        (true, s2, [])

/-- The `socket.on('move_received')` handler of `App.tsx` (lines 188-209):
apply the remote move through the normal apply path; on FEN mismatch with the
declared resulting position, `game.load(newFen)`; on apply failure (caught
exception), `game.load(newFen)` directly.  The captured ledger is not
touched on this path. -/
def moveReceived {Pos : Type} (E : Engine Pos) (s : AppState Pos) (m : Move)
    (newFen : String) : AppState Pos :=
  match E.moveFn s.game m with
  | some (g, _) =>
    if E.fen g ≠ newFen then
      let g2 := E.load newFen
      { s with game := g2, fen := E.fen g2 }
    else
      { s with game := g, fen := E.fen g }
  | none =>
    { s with game := E.load newFen, fen := newFen }

/-- Socket delivery of a `move_received` event: the handler only runs while
the transport is connected (`socket.disconnect()` stops delivery). -/
def deliverMoveReceived {Pos : Type} (E : Engine Pos) (s : AppState Pos)
    (m : Move) (newFen : String) : AppState Pos :=
  if s.connected then moveReceived E s m newFen else s

/-- Delivery of a list of `move_received` events in order. -/
def deliverAll {Pos : Type} (E : Engine Pos) (s : AppState Pos)
    (evs : List (Move × String)) : AppState Pos :=
  evs.foldl (fun st e => deliverMoveReceived E st e.1 e.2) s

/-- `returnToMenu` of `App.tsx` (lines 71-81): back to the menu view; when
leaving an online session, `socket.disconnect()` and clear the session
fields. -/
def returnToMenu {Pos : Type} (s : AppState Pos) : AppState Pos :=
  let s1 := { s with view := View.menu }
  if s.gameMode = GameMode.online then
    { s1 with
      connected := false
      roomId := ""
      isOnlineGameStarted := false
      joinRoomId := ""
      error := "" }
  else
    s1

/-- `joinRoom` of `App.tsx` (lines 227-232): with a non-empty entered code,
emit `join_room` and record the code as `roomId`; otherwise do nothing. -/
def joinRoom {Pos : Type} (s : AppState Pos) : AppState Pos × List Emit :=
  if s.joinRoomId ≠ "" then
    ({ s with roomId := s.joinRoomId }, [Emit.joinRoomMsg s.joinRoomId])
  else
    (s, [])

/-- The `socket.on('error')` handler of `App.tsx` (lines 211-213): only the
`error` message state changes. -/
def onError {Pos : Type} (s : AppState Pos) (msg : String) : AppState Pos :=
  { s with error := msg }

/-- `resetGame` of `App.tsx` (lines 240-247): fresh starting position, empty
ledger, `isBotThinking.current = false`.  Pending bot timeouts are not
cancelled. -/
def resetGame {Pos : Type} (E : Engine Pos) (s : AppState Pos) : AppState Pos :=
  { s with
    game := E.initial
    fen := E.fen E.initial
    captured := { w := [], b := [] }
    isBotThinking := false }

/-- The guard of the bot-logic effect of `App.tsx` (lines 126-131): when in
bot mode, the game is not over, black is to move and the `isBotThinking` ref
is clear, set the ref and schedule the 500ms callback. -/
def botTrigger {Pos : Type} (E : Engine Pos) (s : AppState Pos) : AppState Pos :=
  if s.gameMode = GameMode.bot ∧ E.isGameOver s.game = false ∧
      E.turn s.game = Color.b ∧ s.isBotThinking = false then
    { s with isBotThinking := true, pendingBot := s.pendingBot + 1 }
  else
    s

/-- The body of the bot `setTimeout` callback of `App.tsx` (lines 131-158),
firing one scheduled callback: run `getBestMove`; when a SAN move is
returned, call `makeMove` on the empty move, apply the SAN move through the
engine (uncaught on failure, so the thinking flag would stay set), sync
`fen`, and run the game-over / check / capture chain, which appends to the
captured ledger only in the capture branch; finally clear the thinking
flag. -/
def botComplete {Pos : Type} (E : Engine Pos)
    (getBest : Pos → Difficulty → Option String) (s : AppState Pos) :
    AppState Pos × List Emit :=
  if s.pendingBot = 0 then
    (s, [])
  else
    let s0 := { s with pendingBot := s.pendingBot - 1 }
    match getBest s0.game s0.difficulty with
    | none => ({ s0 with isBotThinking := false }, [])
    | some san =>
      let r1 := makeMove E s0 emptyMove
      let s1 := r1.2.1
      match E.moveSan s1.game san with
      | none => (s1, r1.2.2)
      | some (g2, lastMove) =>
        let s2 := { s1 with game := g2, fen := E.fen g2 }
        let s3 :=
          if E.isGameOver g2 then s2
          else if E.inCheck g2 then s2
          else
            match lastMove.captured with
            | some pt =>
              { s2 with captured := appendCapture s2.captured lastMove.color pt }
            | none => s2
        ({ s3 with isBotThinking := false }, r1.2.2)

/-- The `drawReason` computation of `App.tsx` (lines 254-260). -/
def drawReason {Pos : Type} (E : Engine Pos) (p : Pos) : String :=
  if E.isDraw p then
    if E.isStalemate p then "Stalemate"
    else if E.isThreefoldRepetition p then "Repetition"
    else if E.isInsufficientMaterial p then "Insufficient Material"
    else "Draw"
  else
    ""

/-- Run a list of move attempts through `makeMove` in order, returning the
final state and the number of attempts that were accepted. -/
def runMoves {Pos : Type} (E : Engine Pos) (s : AppState Pos) :
    List Move → AppState Pos × Nat
  | [] => (s, 0)
  | m :: ms =>
    let r := makeMove E s m
    let rest := runMoves E r.2.1 ms
    (rest.1, (if r.1 then 1 else 0) + rest.2)

/-! ### Concrete engine instances for witnesses and counterexamples -/

/-- A concrete rules engine over `Nat` positions: each accepted move advances
a counter, the side to move is the counter's parity (white on even), moves
with an empty origin square are rejected. -/
def toyEngineN : Engine Nat where
  initial := 0
  moveFn := fun p m =>
    if m.fromSq = "" then none
    else some (p + 1, { color := if p % 2 = 0 then Color.w else Color.b, captured := none })
  moveSan := fun p _ =>
    some (p + 1, { color := if p % 2 = 0 then Color.w else Color.b, captured := none })
  fen := fun p => Nat.repr p
  load := fun _ => 0
  turn := fun p => if p % 2 = 0 then Color.w else Color.b
  isGameOver := fun _ => false
  inCheck := fun _ => false
  isDraw := fun _ => false
  isStalemate := fun _ => false
  isThreefoldRepetition := fun _ => false
  isInsufficientMaterial := fun _ => false

/-- A concrete rules engine over `String` positions whose snapshot functions
are the identity (so `fen (load f) = f`), and whose accepted moves always
capture a pawn. -/
def toyEngineS : Engine String where
  initial := "s0"
  moveFn := fun p m =>
    if m.fromSq = "" then none
    else some (p ++ "." ++ m.toSq, { color := Color.w, captured := some PieceType.p })
  moveSan := fun p san =>
    some (p ++ "!" ++ san, { color := Color.b, captured := some PieceType.p })
  fen := fun p => p
  load := fun f => f
  turn := fun p => if p.length % 2 = 0 then Color.w else Color.b
  isGameOver := fun _ => false
  inCheck := fun _ => false
  isDraw := fun _ => false
  isStalemate := fun _ => false
  isThreefoldRepetition := fun _ => false
  isInsufficientMaterial := fun _ => false

/-- The two-kings FEN of end-to-end scenario 5. -/
def kkFen : String := "4k3/8/8/8/8/8/8/4K3 w - - 0 1"

/-- A rules engine agreeing with chess.js on the two-kings position: a draw
by insufficient material, not stalemate, not threefold repetition. -/
def kkEngine : Engine String :=
  { toyEngineS with
    isDraw := fun _ => true
    isInsufficientMaterial := fun _ => true }

/-- A base client state over `Nat` positions. -/
def baseStateN : AppState Nat where
  view := View.game
  gameMode := GameMode.friend
  difficulty := Difficulty.medium
  game := 0
  fen := "0"
  captured := { w := [], b := [] }
  roomId := ""
  playerColor := Color.w
  isOnlineGameStarted := false
  joinRoomId := ""
  error := ""
  isBotThinking := false
  connected := false
  pendingBot := 0

/-- A base client state over `String` positions. -/
def baseStateS : AppState String where
  view := View.game
  gameMode := GameMode.friend
  difficulty := Difficulty.medium
  game := "s0"
  fen := "s0"
  captured := { w := [], b := [] }
  roomId := ""
  playerColor := Color.w
  isOnlineGameStarted := false
  joinRoomId := ""
  error := ""
  isBotThinking := false
  connected := false
  pendingBot := 0

/-- A sample legal move attempt. -/
def mvA : Move := { fromSq := "e2", toSq := "e4" }

/-- An online-mode state where it is not the local player's turn. -/
def sOnlineN : AppState Nat :=
  { baseStateN with
    gameMode := GameMode.online
    playerColor := Color.b
    connected := true
    roomId := "R1" }

/-! ### Claim theorems -/

/-- Claim C1: the `move_received` handler always leaves the canonical
position at the declared resulting FEN — via the normal apply path when the
locally computed FEN agrees, via `loadSnapshot` on disagreement, and via
`loadSnapshot` directly when the local rules reject the move; when they
agree the position is exactly the applied move's result, with no snapshot
load.  The hypothesis states that the snapshot loader is lossless
(`fen (load f) = f`), the spec's assumption on the external rules engine. -/
theorem moveReceived_matches_declared {Pos : Type} (E : Engine Pos)
    (hload : ∀ f, E.fen (E.load f) = f) (s : AppState Pos) (m : Move)
    (nf : String) :
    (moveReceived E s m nf).fen = nf ∧
    E.fen (moveReceived E s m nf).game = nf ∧
    (∀ g r, E.moveFn s.game m = some (g, r) → E.fen g = nf →
      (moveReceived E s m nf).game = g) := by
  rcases hmv : E.moveFn s.game m with _ | ⟨g, r⟩
  · refine ⟨?_, ?_, ?_⟩
    · simp [moveReceived, hmv]
    · simp [moveReceived, hmv, hload]
    · intro g r hgr
      exact absurd hgr (by simp)
  · by_cases hf : E.fen g = nf
    · refine ⟨?_, ?_, ?_⟩
      · simp [moveReceived, hmv, hf]
      · simp [moveReceived, hmv, hf]
      · intro g' r' hgr hfen
        obtain ⟨hg, hr⟩ : g = g' ∧ r = r' := by simpa using hgr
        simp [moveReceived, hmv, hf, hg, hfen]
    · refine ⟨?_, ?_, ?_⟩
      · simp [moveReceived, hmv, hf, hload]
      · simp [moveReceived, hmv, hf, hload]
      · intro g' r' hgr hfen
        obtain ⟨hg, hr⟩ : g = g' ∧ r = r' := by simpa using hgr
        exact absurd (hg ▸ hfen) hf

/-- Witness for C1 at a concrete engine, state, move and declared FEN. -/
theorem moveReceived_matches_declared_inst :
    (moveReceived toyEngineS baseStateS mvA "zz").fen = "zz" :=
  (moveReceived_matches_declared toyEngineS (fun _ => rfl) baseStateS mvA "zz").1

/-- Claim C2: when the rules engine rejects a move attempt, `makeMove`
returns `false`, leaves the whole client state unchanged and emits nothing
to the relay; the thrown exception is absorbed by the `catch`. -/
theorem makeMove_rejected_silent {Pos : Type} (E : Engine Pos)
    (s : AppState Pos) (m : Move) (h : E.moveFn s.game m = none) :
    makeMove E s m = (false, s, []) := by
  unfold makeMove
  split
  · rfl
  · rw [h]

/-- Witness for C2: the empty move is rejected by the concrete engine. -/
theorem makeMove_rejected_silent_inst :
    makeMove toyEngineN baseStateN emptyMove = (false, baseStateN, []) :=
  makeMove_rejected_silent toyEngineN baseStateN emptyMove (by decide)

/-- Claim C3: in an online session, a human move attempt made while the
side to move differs from the local player's assigned side is rejected with
no state change and no relay emit; when the side to move equals the local
side, the attempt proceeds to the rules engine (the returned boolean is
exactly whether the engine accepts). -/
theorem makeMove_online_turn_gate {Pos : Type} (E : Engine Pos)
    (s : AppState Pos) (m : Move) (ho : s.gameMode = GameMode.online) :
    (E.turn s.game ≠ s.playerColor → makeMove E s m = (false, s, [])) ∧
    (E.turn s.game = s.playerColor →
      (makeMove E s m).1 = (E.moveFn s.game m).isSome) := by
  constructor
  · intro hne
    unfold makeMove
    rw [if_pos ⟨ho, hne⟩]
  · intro heq
    unfold makeMove
    rw [if_neg (by simp [heq])]
    rcases hmv : E.moveFn s.game m with _ | ⟨g, r⟩
    · simp
    · rcases hc : r.captured with _ | pt <;> by_cases hon : s.gameMode = GameMode.online <;>
        simp [hc, hon]

/-- Witness for C3: with local side black and white to move, the concrete
attempt is rejected unchanged. -/
theorem makeMove_online_turn_gate_inst :
    makeMove toyEngineN sOnlineN mvA = (false, sOnlineN, []) :=
  (makeMove_online_turn_gate toyEngineN sOnlineN mvA rfl).1 (by decide)

/-- A bot-mode state in which it is black's — the automated opponent's —
turn (position 1 has parity black). -/
def sBotTurnB : AppState Nat :=
  { baseStateN with gameMode := GameMode.bot, game := 1, fen := "1" }

/-- Counterexample to C4 as stated: in a vs-bot session with black (the
automated opponent's side) to move, a human-originated attempt is NOT
rejected — `makeMove` returns `true` and mutates the position store. -/
theorem makeMove_bot_gate_cex :
    sBotTurnB.gameMode = GameMode.bot ∧
    toyEngineN.turn sBotTurnB.game = Color.b ∧
    (makeMove toyEngineN sBotTurnB mvA).1 = true ∧
    (makeMove toyEngineN sBotTurnB mvA).2.1.game ≠ sBotTurnB.game := by
  decide

/-- Claim C4 (amended): in an `AgainstAutomatedOpponent` session `makeMove`
applies no turn-ownership gate — the attempt always proceeds to the rules
engine regardless of side to move, the returned boolean is exactly whether
the engine accepts, and on acceptance the position store is mutated to the
engine's result.  (The turn gate of `makeMove` applies only to online
sessions.) -/
theorem makeMove_bot_ungated {Pos : Type} (E : Engine Pos) (s : AppState Pos)
    (m : Move) (hb : s.gameMode = GameMode.bot) :
    (makeMove E s m).1 = (E.moveFn s.game m).isSome ∧
    (∀ g r, E.moveFn s.game m = some (g, r) → (makeMove E s m).2.1.game = g) := by
  have hgate : ¬(s.gameMode = GameMode.online ∧ E.turn s.game ≠ s.playerColor) := by
    simp [hb]
  constructor
  · unfold makeMove
    rw [if_neg hgate]
    rcases hmv : E.moveFn s.game m with _ | ⟨g, r⟩
    · simp
    · rcases hc : r.captured with _ | pt <;> by_cases hon : s.gameMode = GameMode.online <;>
        simp [hc, hon]
  · intro g r hmv
    unfold makeMove
    rw [if_neg hgate, hmv]
    rcases hc : r.captured with _ | pt <;> by_cases hon : s.gameMode = GameMode.online <;>
      simp [hc, hon]

/-- Witness for C4 (amended) at a concrete bot-mode state. -/
theorem makeMove_bot_ungated_inst :
    (makeMove toyEngineN sBotTurnB mvA).1 = (toyEngineN.moveFn sBotTurnB.game mvA).isSome :=
  (makeMove_bot_ungated toyEngineN sBotTurnB mvA rfl).1

/-- Claim C7: the draw kind is classified in the fixed priority order
stalemate, then threefold repetition, then insufficient material, else
generic draw, and only the first matching kind is reported; instantiated by
the witness at the two-kings position, where the engine reports
insufficient material and the classification is `"Insufficient Material"`. -/
theorem drawReason_priority_order {Pos : Type} (E : Engine Pos) (p : Pos)
    (hd : E.isDraw p = true) :
    (E.isStalemate p = true → drawReason E p = "Stalemate") ∧
    (E.isStalemate p = false → E.isThreefoldRepetition p = true →
      drawReason E p = "Repetition") ∧
    (E.isStalemate p = false → E.isThreefoldRepetition p = false →
      E.isInsufficientMaterial p = true → drawReason E p = "Insufficient Material") ∧
    (E.isStalemate p = false → E.isThreefoldRepetition p = false →
      E.isInsufficientMaterial p = false → drawReason E p = "Draw") := by
  refine ⟨?_, ?_, ?_, ?_⟩ <;> intros <;> simp_all [drawReason]

/-- Witness for C7: the two-kings position classifies as insufficient
material. -/
theorem drawReason_priority_order_inst :
    drawReason kkEngine kkFen = "Insufficient Material" :=
  (drawReason_priority_order kkEngine kkFen rfl).2.2.1 rfl rfl rfl

/-- A state with a non-empty entered room code. -/
def sJoinN : AppState Nat :=
  { baseStateN with gameMode := GameMode.online, joinRoomId := "AB12", connected := true }

/-- Claim C10: `joinRoom` with a non-empty entered code emits exactly one
`join_room` request and records the code as the session's room id
immediately, leaving player color, position, fen, game-started flag and view
unchanged; with an empty code it does nothing; the relay `error` handler
changes only the error message, so a join rejection leaves the rejected code
stored as the room id. -/
theorem joinRoom_records_immediately {Pos : Type} (s : AppState Pos)
    (msg : String) :
    (s.joinRoomId ≠ "" →
      (joinRoom s).2 = [Emit.joinRoomMsg s.joinRoomId] ∧
      (joinRoom s).1.roomId = s.joinRoomId ∧
      (joinRoom s).1.playerColor = s.playerColor ∧
      (joinRoom s).1.game = s.game ∧
      (joinRoom s).1.fen = s.fen ∧
      (joinRoom s).1.isOnlineGameStarted = s.isOnlineGameStarted ∧
      (joinRoom s).1.view = s.view ∧
      (onError (joinRoom s).1 msg).roomId = s.joinRoomId) ∧
    (s.joinRoomId = "" → joinRoom s = (s, [])) ∧
    ((onError s msg).roomId = s.roomId ∧ (onError s msg).error = msg ∧
      (onError s msg).game = s.game ∧ (onError s msg).view = s.view ∧
      (onError s msg).playerColor = s.playerColor ∧
      (onError s msg).isOnlineGameStarted = s.isOnlineGameStarted) := by
  refine ⟨fun hne => ?_, fun he => ?_, ?_⟩
  · simp [joinRoom, onError, hne]
  · simp [joinRoom, he]
  · simp [onError]

/-- Witness for C10 at a concrete state and error message. -/
theorem joinRoom_records_immediately_inst :
    (joinRoom sJoinN).1.roomId = sJoinN.joinRoomId :=
  ((joinRoom_records_immediately sJoinN "Room not found").1 (by decide)).2.1

/-! ### Helper lemmas -/

/-- Flipping a side twice is the identity. -/
theorem Color.flip_flip (c : Color) : c.flip.flip = c := by
  cases c <;> rfl

/-- Helper: a `makeMove` call either changes nothing and returns `false`,
or the engine accepted and the stored position is the engine's result. -/
theorem makeMove_spec_cases {Pos : Type} (E : Engine Pos) (s : AppState Pos)
    (m : Move) :
    (makeMove E s m = (false, s, [])) ∨
    (∃ g r, E.moveFn s.game m = some (g, r) ∧ (makeMove E s m).1 = true ∧
      (makeMove E s m).2.1.game = g) := by
  unfold makeMove
  split
  · left; rfl
  · rcases hmv : E.moveFn s.game m with _ | ⟨g, r⟩
    · left; rfl
    · right
      refine ⟨g, r, rfl, ?_, ?_⟩ <;>
        rcases hc : r.captured with _ | pt <;>
          by_cases hon : s.gameMode = GameMode.online <;> simp [hc, hon]

/-- Helper: a move the engine turns down leaves `makeMove` inert. -/
theorem makeMove_none_frame {Pos : Type} (E : Engine Pos) (s : AppState Pos)
    (m : Move) (h : E.moveFn s.game m = none) :
    makeMove E s m = (false, s, []) := by
  unfold makeMove
  split
  · rfl
  · rw [h]

/-- Helper: with the transport disconnected, delivering any list of
`move_received` events leaves the state untouched. -/
theorem deliverAll_disconnected {Pos : Type} (E : Engine Pos)
    (evs : List (Move × String)) :
    ∀ s : AppState Pos, s.connected = false → deliverAll E s evs = s := by
  induction evs with
  | nil => intro s _; rfl
  | cons e es ih =>
    intro s h
    have hd : deliverMoveReceived E s e.1 e.2 = s := by
      unfold deliverMoveReceived
      rw [h]
      simp
    calc deliverAll E s (e :: es)
        = deliverAll E (deliverMoveReceived E s e.1 e.2) es := rfl
      _ = deliverAll E s es := by rw [hd]
      _ = s := ih s h

/-- Helper: in the concrete `Nat` engine every accepted move flips the side
to move. -/
theorem toyEngineN_flip :
    ∀ (p : Nat) (m : Move) (g : Nat) (r : MoveResult),
      toyEngineN.moveFn p m = some (g, r) →
      toyEngineN.turn g = (toyEngineN.turn p).flip := by
  intro p m g r h
  by_cases hm : m.fromSq = ""
  · simp [toyEngineN, hm] at h
  · have hg : g = p + 1 := by
      simp [toyEngineN, hm] at h
      exact h.1.symm
    subst hg
    rcases Nat.mod_two_eq_zero_or_one p with hp | hp
    · have h1 : (p + 1) % 2 = 1 := by omega
      simp [toyEngineN, Color.flip, hp, h1]
    · have h1 : (p + 1) % 2 = 0 := by omega
      simp [toyEngineN, Color.flip, hp, h1]

/-! ### Remaining claims -/

/-- Claim C5 (code bug): a reset while a bot computation is pending clears
the `isBotThinking` guard without cancelling the scheduled callback, so a
prompt human move after the reset lets the effect schedule a second
computation while the first is still in flight — two computations pending
at once, against the code's own stated purpose for the guard ref. -/
theorem bot_scheduler_double_inflight :
    (botTrigger toyEngineN sBotTurnB).isBotThinking = true ∧
    (botTrigger toyEngineN sBotTurnB).pendingBot = 1 ∧
    (resetGame toyEngineN (botTrigger toyEngineN sBotTurnB)).isBotThinking = false ∧
    (botTrigger toyEngineN
      (makeMove toyEngineN
        (resetGame toyEngineN (botTrigger toyEngineN sBotTurnB)) mvA).2.1).pendingBot = 2 := by
  decide

/-- An online state in which a remote capturing move arrives. -/
def sOnlineS : AppState String :=
  { baseStateS with gameMode := GameMode.online, connected := true, roomId := "R2" }

/-- Counterexample to C6 as stated: a remote move received from the relay is
applied (it captures a pawn per the engine's move result), yet the
captured-piece ledger is left unchanged — the `move_received` handler never
appends to it. -/
theorem captured_ledger_remote_cex :
    toyEngineS.moveFn sOnlineS.game mvA =
      some ("s0.e4", { color := Color.w, captured := some PieceType.p }) ∧
    (moveReceived toyEngineS sOnlineS mvA "s0.e4").game = "s0.e4" ∧
    (moveReceived toyEngineS sOnlineS mvA "s0.e4").captured = sOnlineS.captured := by
  decide

/-- Claim C6 (amended): the captured-piece ledger is appended exactly on the
locally-originated `makeMove` path; a remote move received from the relay
never modifies the ledger; and an automated-opponent capturing move is
appended only when it neither ends the game nor gives check (the bot path
nests the append inside its sound-effect chain). -/
theorem captured_ledger_paths {Pos : Type} (E : Engine Pos)
    (getBest : Pos → Difficulty → Option String) :
    (∀ (s : AppState Pos) m g r pt,
      ¬(s.gameMode = GameMode.online ∧ E.turn s.game ≠ s.playerColor) →
      E.moveFn s.game m = some (g, r) → r.captured = some pt →
      (makeMove E s m).2.1.captured = appendCapture s.captured r.color pt) ∧
    (∀ (s : AppState Pos) m f, (moveReceived E s m f).captured = s.captured) ∧
    (∀ (s : AppState Pos) san g2 r2,
      s.pendingBot = 1 →
      getBest s.game s.difficulty = some san →
      E.moveFn s.game emptyMove = none →
      E.moveSan s.game san = some (g2, r2) →
      (E.isGameOver g2 = true ∨ E.inCheck g2 = true) →
      (botComplete E getBest s).1.captured = s.captured) ∧
    (∀ (s : AppState Pos) san g2 r2 pt,
      s.pendingBot = 1 →
      getBest s.game s.difficulty = some san →
      E.moveFn s.game emptyMove = none →
      E.moveSan s.game san = some (g2, r2) →
      E.isGameOver g2 = false → E.inCheck g2 = false → r2.captured = some pt →
      (botComplete E getBest s).1.captured = appendCapture s.captured r2.color pt) := by
  refine ⟨?_, ?_, ?_, ?_⟩
  · intro s m g r pt hgate hmv hc
    unfold makeMove
    rw [if_neg hgate, hmv]
    by_cases hon : s.gameMode = GameMode.online <;> simp [hon, hc]
  · intro s m f
    rcases hmv : E.moveFn s.game m with _ | ⟨g, r⟩
    · simp [moveReceived, hmv]
    · by_cases hf : E.fen g = f <;> simp [moveReceived, hmv, hf]
  · intro s san g2 r2 hp hBest hEmpty hSan hTerm
    have hmm : makeMove E ({ s with pendingBot := s.pendingBot - 1 }) emptyMove =
        (false, { s with pendingBot := s.pendingBot - 1 }, []) :=
      makeMove_none_frame E _ emptyMove hEmpty
    unfold botComplete
    rw [if_neg (by rw [hp]; exact one_ne_zero)]
    dsimp only
    rw [hBest]
    dsimp only
    rw [hmm]
    dsimp only
    rw [hSan]
    rcases hTerm with hGO | hIC
    · simp [hGO]
    · by_cases hGO : E.isGameOver g2 <;> simp [hGO, hIC]
  · intro s san g2 r2 pt hp hBest hEmpty hSan hGO hIC hc
    have hmm : makeMove E ({ s with pendingBot := s.pendingBot - 1 }) emptyMove =
        (false, { s with pendingBot := s.pendingBot - 1 }, []) :=
      makeMove_none_frame E _ emptyMove hEmpty
    unfold botComplete
    rw [if_neg (by rw [hp]; exact one_ne_zero)]
    dsimp only
    rw [hBest]
    dsimp only
    rw [hmm]
    dsimp only
    rw [hSan]
    simp [hGO, hIC, hc]

/-- Witness for C6 (amended): the remote path leaves the concrete ledger
unchanged. -/
theorem captured_ledger_paths_inst :
    (moveReceived toyEngineS baseStateS mvA "declared").captured = baseStateS.captured :=
  (captured_ledger_paths toyEngineS (fun _ _ => none)).2.1 baseStateS mvA "declared"

/-- Claim C8: leaving a networked session tears the transport down — the
socket is disconnected and the session fields cleared — and no scheduled
continuation of that session can mutate its state afterwards: the bot-effect
guard never schedules a callback while the session mode is online, a bot
callback cannot fire with none scheduled, and with the transport
disconnected any sequence of relay `move_received` deliveries leaves the
state untouched. -/
theorem online_teardown_no_continuation {Pos : Type} (E : Engine Pos)
    (getBest : Pos → Difficulty → Option String) :
    (∀ s : AppState Pos, s.gameMode = GameMode.online → botTrigger E s = s) ∧
    (∀ s : AppState Pos, s.pendingBot = 0 → botComplete E getBest s = (s, [])) ∧
    (∀ s : AppState Pos, s.gameMode = GameMode.online →
      (returnToMenu s).connected = false ∧ (returnToMenu s).view = View.menu ∧
      (returnToMenu s).roomId = "" ∧ (returnToMenu s).isOnlineGameStarted = false) ∧
    (∀ (s : AppState Pos) (evs : List (Move × String)), s.connected = false →
      deliverAll E s evs = s) := by
  refine ⟨?_, ?_, ?_, ?_⟩
  · intro s h
    unfold botTrigger
    rw [if_neg (by simp [h])]
  · intro s h
    unfold botComplete
    rw [if_pos h]
  · intro s h
    simp [returnToMenu, h]
  · intro s evs h
    exact deliverAll_disconnected E evs s h

/-- Witness for C8 at a concrete online state. -/
theorem online_teardown_no_continuation_inst :
    botTrigger toyEngineN sOnlineN = sOnlineN :=
  (online_teardown_no_continuation toyEngineN (fun _ _ => none)).1 sOnlineN rfl

/-- Claim C9: the side to move alternates strictly with each accepted apply:
after any sequence of `makeMove` attempts of which N are accepted, the side
to move equals the starting side when N is even and its opposite when N is
odd.  The hypothesis is the rules-engine guarantee that each successful
apply flips the side to move. -/
theorem turn_alternates_parity {Pos : Type} (E : Engine Pos)
    (hflip : ∀ p m g r, E.moveFn p m = some (g, r) → E.turn g = (E.turn p).flip)
    (s : AppState Pos) (ms : List Move) :
    E.turn (runMoves E s ms).1.game =
      (if (runMoves E s ms).2 % 2 = 0 then E.turn s.game
       else (E.turn s.game).flip) := by
  induction ms generalizing s with
  | nil => simp [runMoves]
  | cons m ms ih =>
    rcases makeMove_spec_cases E s m with hEq | ⟨g, r, hmv, hT, hG⟩
    · simp only [runMoves, hEq]
      simpa using ih s
    · have ht : E.turn (makeMove E s m).2.1.game = (E.turn s.game).flip := by
        rw [hG]
        exact hflip _ _ _ _ hmv
      simp only [runMoves, hT, if_true]
      rw [ih (makeMove E s m).2.1, ht]
      rcases Nat.mod_two_eq_zero_or_one (runMoves E (makeMove E s m).2.1 ms).2 with h2 | h2
      · have h3 : (1 + (runMoves E (makeMove E s m).2.1 ms).2) % 2 = 1 := by omega
        simp [h2, h3]
      · have h3 : (1 + (runMoves E (makeMove E s m).2.1 ms).2) % 2 = 0 := by omega
        simp [h2, h3, Color.flip_flip]

/-- Witness for C9: two accepted moves return the side to move to the
starting side in the concrete engine. -/
theorem turn_alternates_parity_inst :
    toyEngineN.turn (runMoves toyEngineN baseStateN [mvA, mvA]).1.game =
      (if (runMoves toyEngineN baseStateN [mvA, mvA]).2 % 2 = 0 then
        toyEngineN.turn baseStateN.game
       else (toyEngineN.turn baseStateN.game).flip) :=
  turn_alternates_parity toyEngineN toyEngineN_flip baseStateN [mvA, mvA]
